import Mathlib

/-!
Verification development for `quip_sync.py`, a one-way mirror of a local
markdown tree onto a Quip folder hierarchy.

The relevant Python functions are shallowly embedded as pure Lean
functions.  Remote API calls and filesystem reads are modelled by
explicit outcome values threaded in as parameters (an `Env` record of
injected call results), so that every control path of the Python code
(success, caught exception, propagated exception) is represented.
Python exceptions that escape a function are modelled with `Except`;
exceptions that the code catches locally are folded into the
corresponding branch.
-/

/-- Python exception values that appear in the embedded code paths. -/
inductive PyErr where
  | httpError (code : Nat)
  | exn (msg : String)
  | attributeError (msg : String)
  | jsonDecodeError
deriving DecidableEq

/-- Result of one attempt of a remote call as seen by `retry_api_call`:
a normal return, an `urllib.error.HTTPError` with a status code, or any
other exception. -/
inductive CallOutcome (α : Type) where
  | ok (v : α)
  | http (code : Nat)
  | exn (msg : String)
deriving DecidableEq

/-- A value stored in the on-disk sync cache: either the legacy format
(a bare fingerprint string) or the structured dict
`{hash, doc_id, last_sync, sync_success}` (fields may be missing). -/
inductive CacheVal where
  | legacy (hash : String)
  | record (hash : Option String) (doc_id : Option String)
      (last_sync : Option Nat) (sync_success : Option Bool)
deriving DecidableEq

/-- The cache is a JSON object: a finite mapping from local file path to
`CacheVal`, modelled as an association list. -/
abbrev CacheMap := List (String × CacheVal)

/-- `cache.get(path)`: first binding for `path`, if any. -/
def cacheGet : CacheMap → String → Option CacheVal
  | [], _ => none
  | (k, v) :: rest, p => if k = p then some v else cacheGet rest p

/-- `del cache[path]`: remove the binding for `path`. -/
def cacheDel (c : CacheMap) (p : String) : CacheMap :=
  c.filter (fun kv => kv.1 != p)

/-- `cache[path] = v`: overwrite / add the binding for `path`. -/
def cacheSet (c : CacheMap) (p : String) (v : CacheVal) : CacheMap :=
  (p, v) :: cacheDel c p

/-- Python truthiness of an optional string (`None` and `""` are falsy). -/
def pyTruthy : Option String → Bool
  | none => false
  | some s => s != ""

/-- The fields `sync_file` reads from `cache.get(file_path, {})` when the
entry is not in the legacy string format:
`cached_info.get('hash')`, `cached_info.get('doc_id')` and
`cached_info.get('sync_success', False)`.  `none` is returned for a
legacy (bare string) entry, whose `.get` attribute access raises. -/
def entryFields : Option CacheVal → Option (Option String × Option String × Bool)
  | none => some (none, none, false)
  | some (CacheVal.record h d _ s) => some (h, d, s.getD false)
  | some (CacheVal.legacy _) => none

/-!  ## Resilient call wrapper (`retry_api_call`, lines 51-75)

`f i` is the outcome of the `i`-th invocation of the wrapped operation
(`retries = i` at the time of the call).  The result is the Python
return value (`none` models the implicit `None` returned when the
`while` loop is never entered) paired with the list of back-off sleeps
performed, in order.  The rate-limiting `time.sleep(rate_limit)` after a
success is not part of the back-off trace. -/

/-- One unrolling of the `while retries < max_retries` loop; `fuel`
bounds the remaining iterations (`retry_api_call` supplies
`max_retries`, which is enough since `retries` increases by one per
iteration). -/
def retryAux {α : Type} (f : Nat → CallOutcome α) (maxRetries retries fuel : Nat) :
    Except PyErr (Option α) × List Nat :=
  match fuel with
  | 0 => (Except.ok none, [])
  | Nat.succ fuel =>
    if retries < maxRetries then
      match f retries with
      | CallOutcome.ok v => (Except.ok (some v), [])
      | CallOutcome.http code =>
        if code = 504 then
          if retries + 1 < maxRetries then
            let next := retryAux f maxRetries (retries + 1) fuel
            (next.1, (2 ^ retries) :: next.2)
          else (Except.error (PyErr.httpError 504), [])
        else (Except.error (PyErr.httpError code), [])
      | CallOutcome.exn s => (Except.error (PyErr.exn s), [])
    else (Except.ok none, [])

/-- `retry_api_call(func, ..., max_retries)`: run the loop starting from
`retries = 0`. -/
def retry_api_call {α : Type} (f : Nat → CallOutcome α) (max_retries : Nat) :
    Except PyErr (Option α) × List Nat :=
  retryAux f max_retries 0 max_retries

/-!  ## Persistent cache file (`load_cache`, lines 29-35)

The state of the cache file at the moment of the `open` call: absent
(the `open` raises `FileNotFoundError`, which is caught), present but
not valid JSON (`json.load` raises `json.JSONDecodeError`, which is not
caught), or present and parseable to a mapping. -/
inductive CacheFileState where
  | absent
  | corrupt
  | valid (m : CacheMap)

/-- `load_cache(cache_file)`: `try: open; json.load` with
`except FileNotFoundError: return {}` as the only handler. -/
def load_cache : CacheFileState → Except PyErr CacheMap
  | CacheFileState.absent => Except.ok []
  | CacheFileState.corrupt => Except.error PyErr.jsonDecodeError
  | CacheFileState.valid m => Except.ok m

/-!  ## Path helpers (`os.path.basename` / `os.path.splitext` / `os.path.dirname`)

Minimal models of the standard-library helpers used by `sync_file`.
Only `name_without_ext` feeds into behaviour the claims mention (title
matching); `dirname` produces the `base_dir` argument which
`preprocess_markdown_for_images` never consults. -/

/-- Characters of the last `/`-separated component (model of
`os.path.basename`). -/
def basenameAux : List Char → List Char → List Char
  | [], acc => acc.reverse
  | '/' :: rest, _ => basenameAux rest []
  | c :: rest, acc => basenameAux rest (c :: acc)

def basename (p : String) : String :=
  String.mk (basenameAux p.data [])

/-- Index of the last `.` in a list of characters, if any. -/
def lastDotIdxAux : List Char → Nat → Option Nat → Option Nat
  | [], _, best => best
  | c :: rest, i, best =>
    lastDotIdxAux rest (i + 1) (if c = '.' then some i else best)

/-- Root part of `os.path.splitext`: split at the last dot unless every
character before it is itself a dot (leading dots are not an extension
separator). -/
def splitextRoot (l : List Char) : List Char :=
  match lastDotIdxAux l 0 none with
  | none => l
  | some i =>
    if (l.take i).any (fun c => c != '.') then l.take i else l

/-- `os.path.splitext(os.path.basename(p))[0]` as computed in
`sync_file`. -/
def nameWithoutExt (p : String) : String :=
  String.mk (splitextRoot (basename p).data)

/-- Model of `os.path.dirname`: everything before the last `/` (with the
trailing separators dropped); it is only ever used as the `base_dir`
argument of `preprocess_markdown_for_images`, which ignores it. -/
def dirname (p : String) : String :=
  String.mk (((p.data.reverse.dropWhile (fun c => c != '/')).dropWhile
    (fun c => c = '/')).reverse)

/-!  ## Image-reference preprocessing (`preprocess_markdown_for_images`, lines 149-167)

The Python code runs `re.sub(r'!\[(.*?)\]\((.*?)\)', repl, content)`
where the replacement is `####image path: (<group 2>)`.

Semantics of the pattern, embedded below:
* `.` does not match a newline;
* `(.*?)\]\(` is lazy with backtracking: the alt text ends at the first
  `](` for which the rest of the pattern matches;
* `(.*?)\)` ends at the first `)` after that (failing if a newline or
  the end of the input comes first);
* `re.sub` scans left to right and resumes after each replaced match,
  or one character further after a failed match attempt. -/

/-- Match `(.*?)\)` : capture up to the first `)`, failing on a newline
or the end of input.  Returns the capture and the remaining input. -/
def findClose : List Char → Option (List Char × List Char)
  | [] => none
  | c :: rest =>
    if c = ')' then some ([], rest)
    else if c = '\n' then none
    else
      match findClose rest with
      | some (r, t) => some (c :: r, t)
      | none => none

/-- Match `(.*?)\]\((.*?)\)` (the part of the image pattern after `![`).
Scans for the first `](` whose reference part closes; on failure the
candidate `]` is absorbed into the alt text and scanning continues. -/
def tryMatch : List Char → Option (List Char × List Char)
  | [] => none
  | c :: rest =>
    if c = '\n' then none
    else if c = ']' then
      match rest with
      | [] => none
      | c2 :: rest2 =>
        if c2 = '(' then
          match findClose rest2 with
          | some (ref, t) => some (ref, t)
          | none => tryMatch (c2 :: rest2)
        else tryMatch (c2 :: rest2)
    else tryMatch rest

theorem findClose_length {l r t : List Char} (h : findClose l = some (r, t)) :
    t.length < l.length := by
  induction l generalizing r with
  | nil => simp [findClose] at h
  | cons c rest ih =>
    simp only [findClose] at h
    split at h
    · cases h
      simp
    · split at h
      · cases h
      · cases hrec : findClose rest with
        | none => rw [hrec] at h; cases h
        | some p =>
          rw [hrec] at h
          cases p with
          | mk r0 t0 =>
            cases h
            have := ih (r := r0) hrec
            simpa using Nat.lt_succ_of_lt this

theorem tryMatch_length {l ref t : List Char} (h : tryMatch l = some (ref, t)) :
    t.length < l.length := by
  induction l generalizing ref with
  | nil => simp [tryMatch] at h
  | cons c rest ih =>
    unfold tryMatch at h
    split at h
    · cases h
    · split at h
      · split at h
        · cases h
        · rename_i c2 rest2
          split at h
          · cases hfc : findClose rest2 with
            | none =>
              rw [hfc] at h
              have := ih h
              simpa using Nat.lt_succ_of_lt this
            | some p =>
              rw [hfc] at h
              obtain ⟨r0, t0⟩ := p
              cases h
              have := findClose_length hfc
              simp only [List.length_cons]
              omega
          · have := ih h
            simpa using Nat.lt_succ_of_lt this
      · have := ih h
        simpa using Nat.lt_succ_of_lt this

/-- The replacement text for one matched image reference:
`####image path: (<reference>)`. -/
def pyImagePlaceholder (ref : List Char) : List Char :=
  "####image path: (".data ++ ref ++ [')']

/-- The full `re.sub` scan, fuelled for structural recursion.  Each step
consumes at least one character while the fuel drops by exactly one, so
`fuel = l.length` (as supplied by `pySubImages`) never runs out; the
`0` case is unreachable then (only the empty list satisfies
`length ≤ 0`). -/
def pySubImagesF : Nat → List Char → List Char
  | 0, l => l
  | _ + 1, [] => []
  | _ + 1, [c] => [c]
  | fuel + 1, c :: c2 :: rest2 =>
    if c = '!' then
      if c2 = '[' then
        match tryMatch rest2 with
        | some (ref, t) => pyImagePlaceholder ref ++ pySubImagesF fuel t
        | none => c :: pySubImagesF fuel (c2 :: rest2)
      else c :: pySubImagesF fuel (c2 :: rest2)
    else c :: pySubImagesF fuel (c2 :: rest2)

/-- The full `re.sub` scan. -/
def pySubImages (l : List Char) : List Char :=
  pySubImagesF l.length l

/-- The result of `pySubImagesF` does not depend on the fuel as long as
the fuel covers the input length. -/
theorem pySubImagesF_fuel : ∀ (f g : Nat) (l : List Char),
    l.length ≤ f → l.length ≤ g → pySubImagesF f l = pySubImagesF g l := by
  intro f
  induction f with
  | zero =>
    intro g l hf _
    have : l = [] := List.eq_nil_of_length_eq_zero (by omega)
    subst this
    cases g <;> rfl
  | succ f ih =>
    intro g l hf hg
    cases g with
    | zero =>
      have : l = [] := List.eq_nil_of_length_eq_zero (by omega)
      subst this
      rfl
    | succ g =>
      cases l with
      | nil => rfl
      | cons c rest =>
        cases rest with
        | nil => rfl
        | cons c2 rest2 =>
          simp only [List.length_cons] at hf hg
          unfold pySubImagesF
          by_cases hc : c = '!'
          · rw [if_pos hc, if_pos hc]
            by_cases hc2 : c2 = '['
            · rw [if_pos hc2, if_pos hc2]
              cases hm : tryMatch rest2 with
              | some p =>
                obtain ⟨ref, t⟩ := p
                have ht := tryMatch_length hm
                simp only [hm]
                rw [ih g t (by omega) (by omega)]
              | none =>
                simp only [hm]
                rw [ih g (c2 :: rest2) (by simp; omega) (by simp; omega)]
            · rw [if_neg hc2, if_neg hc2,
                ih g (c2 :: rest2) (by simp; omega) (by simp; omega)]
          · rw [if_neg hc, if_neg hc,
              ih g (c2 :: rest2) (by simp; omega) (by simp; omega)]

/-- `preprocess_markdown_for_images(content, base_dir)` (the `base_dir`
parameter is accepted and never used, as in the source). -/
def preprocess_markdown_for_images (content : String) (base_dir : String) : String :=
  String.mk (pySubImages content.data)

/-!  ## First-heading extraction (`sync_file` update path, lines 321-356)

`re.search(r'<h1[^>]*>(.*?)</h1>', html)`: leftmost position where
`<h1` is followed (through non-`>` characters) by `>`, then a lazy
newline-free capture up to the first `</h1>`. -/

/-- Consume `[^>]*>`: drop characters up to and including the first
`>`. -/
def skipToGt : List Char → Option (List Char)
  | [] => none
  | c :: rest => if c = '>' then some rest else skipToGt rest

/-- Capture `(.*?)</h1>`: the shortest newline-free prefix followed by
the literal `</h1>`. -/
def captureToCloseH1 : List Char → Option (List Char)
  | [] => none
  | '<' :: '/' :: 'h' :: '1' :: '>' :: _ => some []
  | c :: rest =>
    if c = '\n' then none
    else
      match captureToCloseH1 rest with
      | some capt => some (c :: capt)
      | none => none

/-- Attempt the pattern at one position, just after the literal `<h1`. -/
def matchH1After (l : List Char) : Option (List Char) :=
  match skipToGt l with
  | none => none
  | some afterGt => captureToCloseH1 afterGt

/-- `re.search` for the heading pattern: try each position from the
left; group 1 of the first successful match. -/
def findH1 : List Char → Option (List Char)
  | [] => none
  | c :: rest =>
    if c = '<' then
      match rest with
      | 'h' :: '1' :: rest2 =>
        match matchH1After rest2 with
        | some capt => some capt
        | none => findH1 rest
      | _ => findH1 rest
    else findH1 rest

/-- `needle.isPrefixOf hay` for character lists (spelt out to keep the
development self-contained). -/
def listStarts : List Char → List Char → Bool
  | [], _ => true
  | _ :: _, [] => false
  | a :: as, b :: bs => a == b && listStarts as bs

/-- Python's substring test `needle in hay`. -/
def listHasSub (needle : List Char) : List Char → Bool
  | [] => listStarts needle []
  | c :: rest => listStarts needle (c :: rest) || listHasSub needle rest

/-!  ## Remote mutations issued by `sync_file` -/

/-- A content-mutating remote call attempted by `sync_file` (reads such
as `get_thread`/`get_folder` are not mutations). -/
inductive MutOp where
  | editDelete (heading : String)
  | editPrepend (content : String)
  | newDocument (title : String) (content : String)
deriving DecidableEq

/-- The content-clearing step of the update path: only when the fetched
HTML is non-empty and contains `<h1` is the first-heading search run,
and only an actual regex match triggers the `DELETE_DOCUMENT_RANGE`
edit (whose own failure is caught and ignored, lines 338-347). -/
def clearOps (html : String) : List MutOp :=
  if html != "" && listHasSub ['<', 'h', '1'] html.data then
    match findH1 html.data with
    | some heading => [MutOp.editDelete (String.mk heading)]
    | none => []
  else []

/-- Remote mutations attempted by the update path once the existing
document's HTML has been fetched: conditional clearing, then the
`location=1` (PREPEND) insertion of the new content. -/
def updateOps (html content : String) : List MutOp :=
  clearOps html ++ [MutOp.editPrepend content]

/-!  ## `sync_file` (lines 240-407) -/

/-- Result of the `get_thread` verification of a cached document id
(lines 278-287): the id is confirmed, the response carries `'error'` /
no `'thread'` (id discarded), or the call raises (caught, id
discarded). -/
inductive ThreadCheck where
  | valid
  | invalid
  | errored

/-- One child of the target folder as consumed by the title search
(lines 290-302): a thread child together with the outcome of the
`get_thread` call made for its title (a raised call skips the child), or
a non-thread (folder) child. -/
inductive Child where
  | threadChild (tid : String) (title : Except PyErr String)
  | folderChild (fid : String)

/-- Injected outcomes of every external interaction one `sync_file` call
can perform.  Each field is the result the corresponding call would
produce if reached. -/
structure Env where
  fileHash : Option String
  readContent : Except PyErr String
  verifyCached : ThreadCheck
  folderChildren : Except PyErr (List Child)
  updateHtml : Except PyErr String
  prependResult : Except PyErr Unit
  newDoc : Except PyErr (Option String)
  media : Bool
  now : Nat

/-- The title search of lines 292-302: first thread child whose fetched
title equals the file name without extension; children whose
`get_thread` raises are skipped. -/
def searchByTitle (name : String) : List Child → Option String
  | [] => none
  | Child.threadChild tid title :: rest =>
    match title with
    | Except.ok t => if t = name then some tid else searchByTitle name rest
    | Except.error _ => searchByTitle name rest
  | Child.folderChild _ :: rest => searchByTitle name rest

/-- Document-id resolution, lines 277-302: verify a truthy cached id via
`get_thread`; if no usable id remains, list the folder (an uncaught
raise here propagates out of `sync_file`) and search by title. -/
def resolveDoc (env : Env) (cached_doc_id : Option String) (name : String) :
    Except PyErr (Option String) :=
  let d1 : Option String :=
    if pyTruthy cached_doc_id then
      match env.verifyCached with
      | ThreadCheck.valid => cached_doc_id
      | ThreadCheck.invalid => none
      | ThreadCheck.errored => none
    else cached_doc_id
  if pyTruthy d1 then Except.ok d1
  else
    match env.folderChildren with
    | Except.error e => Except.error e
    | Except.ok children =>
      match searchByTitle name children with
      | some tid => Except.ok (some tid)
      | none => Except.ok d1

/-- Line 305, `cached_info.get('sync_success', False)`: on a legacy
bare-string entry the attribute access raises `AttributeError` (strings
have no `.get`), and `sync_file` has no handler for it. -/
def syncSuccessOf : Option CacheVal → Except PyErr Bool
  | some (CacheVal.legacy _) =>
    Except.error (PyErr.attributeError "str object has no attribute get")
  | some (CacheVal.record _ _ _ s) => Except.ok (s.getD false)
  | none => Except.ok false

/-- Lines 307-314: the update decision.  `need_update` starts `True` and
is cleared only when the fingerprint matches, a truthy document id was
resolved and the cached sync flag is set. -/
def needUpdateFlag (file_hash : String) (cached_hash : Option String)
    (doc_id : Option String) (sync_success : Bool) : Bool :=
  if cached_hash == some file_hash && pyTruthy doc_id && sync_success then false
  else if cached_hash == some file_hash && pyTruthy doc_id && !sync_success then true
  else true

/-- Lines 319-398, the apply phase.  Returns the computed
`sync_success`, the document id to store, and the remote mutations
attempted.  Update path: a raised `get_thread` is caught with no edit
attempted; a raised prepend edit is caught after the edits were
attempted; otherwise the media pass result becomes the flag.  Create
path: `new_document` is always attempted; on a raise the falsy prior id
is kept; otherwise the returned id (possibly `None`) replaces it and a
truthy id gates the media pass. -/
def applyPhase (env : Env) (need_update : Bool) (doc_id : Option String)
    (name content : String) : Bool × Option String × List MutOp :=
  if need_update then
    if pyTruthy doc_id then
      match env.updateHtml with
      | Except.error _ => (false, doc_id, [])
      | Except.ok html =>
        match env.prependResult with
        | Except.error _ => (false, doc_id, updateOps html content)
        | Except.ok _ => (env.media, doc_id, updateOps html content)
    else
      match env.newDoc with
      | Except.error _ => (false, doc_id, [MutOp.newDocument name content])
      | Except.ok newId =>
        if pyTruthy newId then (env.media, newId, [MutOp.newDocument name content])
        else (false, newId, [MutOp.newDocument name content])
  else (true, doc_id, [])

/-- `sync_file(client, file_path, quip_folder_id, cache)`: returns the
updated cache and the list of attempted remote mutations, or the
uncaught exception. -/
def sync_file (env : Env) (file_path : String) (quip_folder_id : String)
    (cache : CacheMap) : Except PyErr (CacheMap × List MutOp) :=
  match env.fileHash with
  | none => Except.ok (cache, [])
  | some file_hash =>
    let cached_info := cacheGet cache file_path
    let cached_hash : Option String :=
      match cached_info with
      | some (CacheVal.legacy s) => some s
      | some (CacheVal.record h _ _ _) => h
      | none => none
    let cached_doc_id : Option String :=
      match cached_info with
      | some (CacheVal.legacy _) => none
      | some (CacheVal.record _ d _ _) => d
      | none => none
    match env.readContent with
    | Except.error _ => Except.ok (cache, [])
    | Except.ok raw =>
      let content := preprocess_markdown_for_images raw (dirname file_path)
      let name := nameWithoutExt file_path
      match resolveDoc env cached_doc_id name with
      | Except.error e => Except.error e
      | Except.ok doc_id =>
        match syncSuccessOf cached_info with
        | Except.error e => Except.error e
        | Except.ok sync_success =>
          let need_update := needUpdateFlag file_hash cached_hash doc_id sync_success
          let step := applyPhase env need_update doc_id name content
          Except.ok
            (cacheSet cache file_path
              (CacheVal.record (some file_hash) step.2.1 (some env.now) (some step.1)),
             step.2.2)

/-!  ## Deletion reconciliation (`delete_quip_document`, lines 417-434) -/

/-- `delete_quip_document(client, file_path, cache)` with the outcome of
the `delete_thread` call injected.  Returns the resulting cache and
whether a delete call was issued. -/
def delete_quip_document (deleteResult : Except PyErr Unit) (file_path : String)
    (cache : CacheMap) : CacheMap × Bool :=
  match cacheGet cache file_path with
  | some (CacheVal.legacy _) => (cache, false)
  | some (CacheVal.record _ d _ _) =>
    if pyTruthy d then
      match deleteResult with
      | Except.ok _ => (cacheDel cache file_path, true)
      | Except.error _ => (cache, true)
    else (cache, false)
  | none => (cache, false)

/-!  ## Clean sync (`clear_quip_folder` lines 436-458, `sync_directory` lines 464-472)

A folder's remote state with injected call outcomes, encoded as a
sibling chain: `fetchFail` is a folder whose own `get_folder` raises;
`nil` ends a child list; `doc` is a thread child with the outcomes of
its title `get_thread` and its `delete_thread`; `sub` is a subfolder
child with the outcome of its title `get_folder` and its own state. -/
inductive FTree where
  | fetchFail
  | nil
  | doc (title : Except PyErr String) (del : Except PyErr Unit) (rest : FTree)
  | sub (titleFetch : Except PyErr String) (child : FTree) (rest : FTree)

/-- `clear_quip_folder(client, folder_id)`: any raise inside this
invocation's loop is caught by its `except` and yields `False`; the
boolean returned by the recursive call on a subfolder is discarded
(line 454), so a subfolder that fails to clear does not make the parent
report failure. -/
def clear_quip_folder : FTree → Bool
  | FTree.fetchFail => false
  | FTree.nil => true
  | FTree.doc title del rest =>
    match title with
    | Except.error _ => false
    | Except.ok _ =>
      match del with
      | Except.error _ => false
      | Except.ok _ => clear_quip_folder rest
  | FTree.sub titleFetch child rest =>
    match titleFetch with
    | Except.error _ => false
    | Except.ok _ =>
      let _ := clear_quip_folder child
      clear_quip_folder rest

/-- Lines 464-472 of `sync_directory`: on a clean sync the cache is
reset to `{}` only inside `if clear_quip_folder(...)`. -/
def cleanSyncStep (root : FTree) (cache : CacheMap) : CacheMap :=
  if clear_quip_folder root then [] else cache

/-!  ## Claims -/

/-- Claim C7, counterexample: the claim says `load_cache` returns the
empty mapping without raising whenever the cache file is absent *or its
contents are corrupt*; but `load_cache` only catches
`FileNotFoundError`, so on a present-but-unparsable file the
`json.JSONDecodeError` raised by `json.load` propagates instead of
yielding `{}`. -/
theorem c7_counterexample :
    load_cache CacheFileState.corrupt ≠ Except.ok ([] : CacheMap) := by
  simp [load_cache]

/-- Claim C7, amended: `load_cache` returns the empty mapping when the
cache file is absent and the stored mapping when it parses; corrupt
contents raise a JSON decode error that propagates to the caller. -/
theorem c7_load_cache_amended :
    load_cache CacheFileState.absent = Except.ok ([] : CacheMap)
    ∧ (∀ m, load_cache (CacheFileState.valid m) = Except.ok m)
    ∧ load_cache CacheFileState.corrupt = Except.error PyErr.jsonDecodeError :=
  ⟨rfl, fun _ => rfl, rfl⟩

/-- Claim C2, counterexample: the claim says the cache is discarded
unconditionally after a clean-sync clearing pass, regardless of whether
clearing fully succeeded.  Here the clearing pass fails (the single
document's `delete_thread` raises, so `clear_quip_folder` returns
`False`) and the cache survives untouched. -/
theorem c2_counterexample :
    cleanSyncStep
        (FTree.doc (Except.ok "T") (Except.error (PyErr.exn "boom")) FTree.nil)
        [("notes/a.md", CacheVal.legacy "abc")]
      ≠ ([] : CacheMap) := by
  decide

/-- Claim C2, amended: on a clean-sync run the cache is discarded only
when `clear_quip_folder` reports success; when it reports failure the
loaded cache is kept unchanged. -/
theorem c2_clean_sync_conditional (root : FTree) (cache : CacheMap) :
    cleanSyncStep root cache = [] ↔ (clear_quip_folder root = true ∨ cache = []) := by
  unfold cleanSyncStep
  by_cases h : clear_quip_folder root
  · simp [h]
  · simp [h]

/-- Claim C10: `preprocess_markdown_for_images` never consults its
`base_dir` argument, so its output depends only on the content. -/
theorem c10_base_dir_unused (content b1 b2 : String) :
    preprocess_markdown_for_images content b1
      = preprocess_markdown_for_images content b2 := rfl

/-- Claim C8: for a deletion candidate with a recorded truthy remote id,
the delete call is issued and the cache entry is removed exactly when
the call succeeds (on failure the entry survives); legacy entries and
entries without a usable id are left untouched and trigger no delete
call. -/
theorem c8_delete_reconciliation (cache : CacheMap) (path : String)
    (h d : Option String) (l : Option Nat) (s : Option Bool) (e : PyErr) :
    ((cacheGet cache path = some (CacheVal.record h d l s) → pyTruthy d = true →
        delete_quip_document (Except.ok ()) path cache = (cacheDel cache path, true)
        ∧ delete_quip_document (Except.error e) path cache = (cache, true))
    ∧ (∀ fp, cacheGet cache path = some (CacheVal.legacy fp) →
        ∀ dr, delete_quip_document dr path cache = (cache, false))
    ∧ (cacheGet cache path = some (CacheVal.record h d l s) → pyTruthy d = false →
        ∀ dr, delete_quip_document dr path cache = (cache, false))
    ∧ (cacheGet cache path = none →
        ∀ dr, delete_quip_document dr path cache = (cache, false))) := by
  refine ⟨?_, ?_, ?_, ?_⟩
  · intro hget htr
    refine ⟨?_, ?_⟩ <;> (unfold delete_quip_document; rw [hget]; simp [htr])
  · intro fp hget dr
    unfold delete_quip_document
    rw [hget]
  · intro hget htr dr
    unfold delete_quip_document
    rw [hget]
    simp [htr]
  · intro hget dr
    unfold delete_quip_document
    rw [hget]

/-- Claim C8 witness: a concrete cache entry with a recorded remote id,
exercised with a succeeding and a failing delete call. -/
theorem c8_witness :
    delete_quip_document (Except.ok ()) "notes/x.md"
        [("notes/x.md", CacheVal.record (some "abc") (some "D") none (some true))]
      = (cacheDel [("notes/x.md", CacheVal.record (some "abc") (some "D") none (some true))]
          "notes/x.md", true)
    ∧ delete_quip_document (Except.error (PyErr.exn "fail")) "notes/x.md"
        [("notes/x.md", CacheVal.record (some "abc") (some "D") none (some true))]
      = ([("notes/x.md", CacheVal.record (some "abc") (some "D") none (some true))], true) :=
  (c8_delete_reconciliation
      [("notes/x.md", CacheVal.record (some "abc") (some "D") none (some true))]
      "notes/x.md" (some "abc") (some "D") none (some true) (PyErr.exn "fail")).1
    (by decide) (by decide)

/-- When every attempt times out with HTTP 504, the loop sleeps
`2 ^ retries` before each re-attempt and finally re-raises; the back-off
trace from state `(retries = r, fuel)` lists `2 ^ r, 2 ^ (r+1), ...` for
all but the last remaining attempt. -/
theorem retryAux_all_504 {α : Type} (f : Nat → CallOutcome α) (m : Nat) :
    ∀ fuel r, r + fuel = m → r < m →
      (∀ i, i < m → f i = CallOutcome.http 504) →
      retryAux f m r fuel =
        (Except.error (PyErr.httpError 504),
         (List.range (m - 1 - r)).map (fun j => 2 ^ (r + j))) := by
  intro fuel
  induction fuel with
  | zero => intro r h1 h2 _; omega
  | succ fuel ih =>
    intro r h1 h2 hall
    unfold retryAux
    rw [if_pos h2, hall r h2]
    simp only [if_pos rfl]
    by_cases h3 : r + 1 < m
    · rw [if_pos h3, ih (r + 1) (by omega) h3 hall]
      have hr : m - 1 - r = (m - 1 - (r + 1)) + 1 := by omega
      rw [hr, List.range_succ_eq_map, List.map_cons, List.map_map]
      refine congrArg (fun ws => (Except.error (PyErr.httpError 504), ws)) ?_
      have : (fun j => 2 ^ (r + 1 + j)) = ((fun j => 2 ^ (r + j)) ∘ Nat.succ) := by
        funext j
        simp only [Function.comp]
        refine congrArg (fun k => 2 ^ k) ?_
        omega
      rw [this]
      simp
    · rw [if_neg h3]
      have hz : m - 1 - r = 0 := by omega
      simp [hz]

/-- Claim C6: under `retry_api_call`, a gateway-timeout (HTTP 504)
failure is retried with exponential back-off — the trace of back-off
sleeps on a run that exhausts all `m` attempts is
`2^0, 2^1, ..., 2^(m-2)` and the 504 error then propagates — while a
non-504 HTTP failure or any other exception on the first attempt
propagates immediately with no back-off sleep and no retry. -/
theorem c6_retry_backoff {α : Type} (f : Nat → CallOutcome α) (m : Nat) :
    ((0 < m → (∀ i, i < m → f i = CallOutcome.http 504) →
        retry_api_call f m =
          (Except.error (PyErr.httpError 504),
           (List.range (m - 1)).map (fun j => 2 ^ j)))
    ∧ (∀ c, 0 < m → f 0 = CallOutcome.http c → c ≠ 504 →
        retry_api_call f m = (Except.error (PyErr.httpError c), []))
    ∧ (∀ s, 0 < m → f 0 = CallOutcome.exn s →
        retry_api_call f m = (Except.error (PyErr.exn s), []))) := by
  refine ⟨?_, ?_, ?_⟩
  · intro hm hall
    unfold retry_api_call
    rw [retryAux_all_504 f m m 0 (by omega) hm hall]
    simp
  · intro c hm hf hc
    unfold retry_api_call
    cases m with
    | zero => omega
    | succ k =>
      unfold retryAux
      rw [if_pos (by omega), hf]
      simp only [if_neg hc]
  · intro s hm hf
    unfold retry_api_call
    cases m with
    | zero => omega
    | succ k =>
      unfold retryAux
      rw [if_pos (by omega), hf]

/-- Claim C6 witness: three concrete attempt streams at
`max_retries = 3` — all-504 (two back-off sleeps of 1 and 2 time units,
then the error), an immediate HTTP 500, and an immediate non-HTTP
exception. -/
theorem c6_witness :
    retry_api_call (fun _ => (CallOutcome.http 504 : CallOutcome Nat)) 3 =
      (Except.error (PyErr.httpError 504), [1, 2])
    ∧ retry_api_call (fun _ => (CallOutcome.http 500 : CallOutcome Nat)) 3 =
      (Except.error (PyErr.httpError 500), [])
    ∧ retry_api_call (fun _ => (CallOutcome.exn "conn reset" : CallOutcome Nat)) 3 =
      (Except.error (PyErr.exn "conn reset"), []) := by
  refine ⟨?_, ?_, ?_⟩
  · have h := (c6_retry_backoff (fun _ => (CallOutcome.http 504 : CallOutcome Nat)) 3).1
      (by omega) (fun i _ => rfl)
    rw [h]
    rfl
  · have h := (c6_retry_backoff (fun _ => (CallOutcome.http 500 : CallOutcome Nat)) 3).2.1
      500 (by omega) rfl (by omega)
    rw [h]
  · have h := (c6_retry_backoff (fun _ => (CallOutcome.exn "conn reset" : CallOutcome Nat)) 3).2.2
      "conn reset" (by omega) rfl
    rw [h]

/-- Benign environment for the legacy-cache-entry run: the file reads
fine, the folder listing is empty (so the title search finds nothing),
and every later call would succeed. -/
def envC1 : Env :=
  ⟨some "9f2c", Except.ok "hello", ThreadCheck.invalid, Except.ok [],
   Except.ok "", Except.ok (), Except.ok (some "NEW"), true, 0⟩

/-- Claim C1: the spec requires a legacy bare-string cache entry to be
accepted without error and treated as `remoteId = null`; the code's own
`isinstance` branch (line 255, "Handle old cache format") shows the same
intent.  But line 305 then evaluates
`cached_info.get('sync_success', False)` on the original string value,
which raises an uncaught `AttributeError`, so `sync_file` crashes on
every legacy entry after performing the title search. -/
theorem c1_legacy_entry_raises :
    sync_file envC1 "notes/a.md" "FOLDER" [("notes/a.md", CacheVal.legacy "abc123")] =
      Except.error (PyErr.attributeError "str object has no attribute get") := by
  rfl

/-- Environment for the media-pass-failure run: the cached document id
verifies, the file content changed (forcing an update), the content
replacement succeeds, and `process_images_after_upload` returns
`False`. -/
def envC3 : Env :=
  ⟨some "newhash", Except.ok "body", ThreadCheck.valid, Except.ok [],
   Except.ok "", Except.ok (), Except.ok none, false, 7⟩

/-- Claim C3: the spec (and the code's own comment, lines 365 and 390:
"Still consider it a success since the document was updated") says a
media-pass failure must not prevent the content from being considered
synced.  But the executed assignment is `sync_success = False`, so after
a fully successful content update whose media pass fails, the cache
entry records `sync_success = false`. -/
theorem c3_media_failure_marks_unsynced :
    sync_file envC3 "d/n.md" "F"
        [("d/n.md", CacheVal.record (some "oldhash") (some "DOC") (some 1) (some true))] =
      Except.ok
        ([("d/n.md", CacheVal.record (some "newhash") (some "DOC") (some 7) (some false))],
         [MutOp.editPrepend "body"]) := by
  rfl

/-- A successful first-heading search implies the text `<h1` occurs in
the input (so the `'<h1' in html` guard of the update path is passed). -/
theorem findH1_hasSub : ∀ {l h : List Char}, findH1 l = some h →
    listHasSub ['<', 'h', '1'] l = true := by
  intro l
  induction l with
  | nil => intro h hh; simp [findH1] at hh
  | cons c rest ih =>
    intro h hh
    unfold findH1 at hh
    split at hh
    · rename_i hc
      subst hc
      split at hh
      · simp [listHasSub, listStarts]
      · have := ih hh
        simp [listHasSub]
        right
        simpa using this
    · have := ih hh
      simp [listHasSub]
      right
      simpa using this

/-- Claim C4: on the update path, once the existing document's HTML has
been fetched, the attempted mutations always end with the `PREPEND`
insertion of the new content; an empty body triggers no delete attempt
at all (tolerated without erroring, the prepend is the only edit); and
when the first-heading search succeeds the `DELETE_DOCUMENT_RANGE` edit
for that heading is attempted first, followed by the prepend. -/
theorem c4_update_clear_then_prepend (html content : String) :
    ((updateOps html content).getLast? = some (MutOp.editPrepend content))
    ∧ (html = "" → updateOps html content = [MutOp.editPrepend content])
    ∧ (∀ h, findH1 html.data = some h →
        updateOps html content =
          [MutOp.editDelete (String.mk h), MutOp.editPrepend content]) := by
  refine ⟨?_, ?_, ?_⟩
  · unfold updateOps
    exact List.getLast?_concat _
  · intro he
    subst he
    rfl
  · intro h hfind
    have hsub : listHasSub ['<', 'h', '1'] html.data = true := findH1_hasSub hfind
    have hne : html ≠ "" := by
      intro he
      subst he
      simp [findH1] at hfind
    unfold updateOps clearOps
    have hcond : (html != "" && listHasSub ['<', 'h', '1'] html.data) = true := by
      rw [hsub, Bool.and_true]
      simpa [bne_iff_ne] using hne
    rw [if_pos hcond, hfind]
    rfl

/-- Claim C4 witness: a concrete document body with one `<h1>` heading
is cleared via that heading and then receives the prepended content. -/
theorem c4_witness :
    updateOps "<h1>Title</h1>after" "new content" =
      [MutOp.editDelete (String.mk "Title".data), MutOp.editPrepend "new content"] :=
  (c4_update_clear_then_prepend "<h1>Title</h1>after" "new content").2.2
    "Title".data (by decide)

/-- Scan step: a character other than `!` is copied unchanged. -/
theorem pySubImages_generic {c : Char} (rest : List Char) (hc : c ≠ '!') :
    pySubImages (c :: rest) = c :: pySubImages rest := by
  unfold pySubImages
  cases rest with
  | nil => rfl
  | cons c2 rest2 =>
    simp only [List.length_cons, pySubImagesF, if_neg hc]

/-- Scan step: `![` whose tail matches the rest of the image pattern is
replaced by the placeholder, and scanning resumes after the match. -/
theorem pySubImages_match {rest2 ref t : List Char}
    (h : tryMatch rest2 = some (ref, t)) :
    pySubImages ('!' :: '[' :: rest2) = pyImagePlaceholder ref ++ pySubImages t := by
  unfold pySubImages
  simp only [List.length_cons, pySubImagesF, h]
  have ht := tryMatch_length h
  refine congrArg (fun l => pyImagePlaceholder ref ++ l) ?_
  exact pySubImagesF_fuel _ _ t (by omega) (by omega)

/-- Scan step: `![` whose tail does not complete the pattern leaves the
`!` in place, and scanning resumes at the `[`. -/
theorem pySubImages_nomatch {rest2 : List Char} (h : tryMatch rest2 = none) :
    pySubImages ('!' :: '[' :: rest2) = '!' :: pySubImages ('[' :: rest2) := by
  unfold pySubImages
  simp [pySubImagesF, h]

/-- Scan step: `!` not followed by `[` is copied unchanged. -/
theorem pySubImages_bang_nobracket {c2 : Char} (rest2 : List Char) (h : c2 ≠ '[') :
    pySubImages ('!' :: c2 :: rest2) = '!' :: pySubImages (c2 :: rest2) := by
  unfold pySubImages
  simp [pySubImagesF, h]

/-- The reference matcher accepts exactly the text up to the first `)`
when the reference contains neither `)` nor a newline. -/
theorem findClose_complete : ∀ (ref rest : List Char), ')' ∉ ref → '\n' ∉ ref →
    findClose (ref ++ ')' :: rest) = some (ref, rest) := by
  intro ref
  induction ref with
  | nil =>
    intro rest _ _
    simp [findClose]
  | cons c cs ih =>
    intro rest h1 h2
    simp only [List.mem_cons, not_or] at h1 h2
    obtain ⟨hc1, h1⟩ := h1
    obtain ⟨hc2, h2⟩ := h2
    simp [findClose, Ne.symm hc1, Ne.symm hc2, ih rest h1 h2]

/-- The pattern tail `](ref)` right after a well-formed alt text is
matched exactly, capturing the reference. -/
theorem tryMatch_complete : ∀ (alt ref rest : List Char), '\n' ∉ alt → ']' ∉ alt →
    ')' ∉ ref → '\n' ∉ ref →
    tryMatch (alt ++ ']' :: '(' :: (ref ++ ')' :: rest)) = some (ref, rest) := by
  intro alt
  induction alt with
  | nil =>
    intro ref rest _ _ h3 h4
    simp [tryMatch, findClose_complete ref rest h3 h4]
  | cons a as ih =>
    intro ref rest h1 h2 h3 h4
    simp only [List.mem_cons, not_or] at h1 h2
    obtain ⟨ha1, h1⟩ := h1
    obtain ⟨ha2, h2⟩ := h2
    simp only [List.cons_append]
    rw [tryMatch.eq_def]
    simp only [if_neg (Ne.symm ha1), if_neg (Ne.symm ha2)]
    exact ih ref rest h1 h2 h3 h4

/-- Every well-formed image reference is replaced by its placeholder,
keeping the reference and dropping the alt text; the scan continues on
the remainder. -/
theorem pySubImages_replaces : ∀ (pre alt ref rest : List Char), '!' ∉ pre →
    '\n' ∉ alt → ']' ∉ alt → ')' ∉ ref → '\n' ∉ ref →
    pySubImages (pre ++ '!' :: '[' :: (alt ++ ']' :: '(' :: (ref ++ ')' :: rest)))
      = pre ++ (pyImagePlaceholder ref ++ pySubImages rest) := by
  intro pre
  induction pre with
  | nil =>
    intro alt ref rest _ h2 h3 h4 h5
    simp only [List.nil_append]
    rw [pySubImages_match (tryMatch_complete alt ref rest h2 h3 h4 h5)]
  | cons p ps ih =>
    intro alt ref rest h1 h2 h3 h4 h5
    simp only [List.mem_cons, not_or] at h1
    obtain ⟨hp, h1⟩ := h1
    simp only [List.cons_append]
    rw [pySubImages_generic _ (Ne.symm hp), ih alt ref rest h1 h2 h3 h4 h5]

/-- Content without the two-character opener `![` is scanned through
unchanged. -/
theorem pySubImages_id_of_no_ref : ∀ (l : List Char),
    listHasSub ['!', '['] l = false → pySubImages l = l := by
  intro l
  induction l with
  | nil => intro _; rfl
  | cons c rest ih =>
    intro h
    simp only [listHasSub, Bool.or_eq_false_iff] at h
    obtain ⟨hs, hrest⟩ := h
    by_cases hc : c = '!'
    · subst hc
      cases rest with
      | nil => rfl
      | cons c2 rest2 =>
        have hc2 : c2 ≠ '[' := by
          intro he
          subst he
          simp [listStarts] at hs
        rw [pySubImages_bang_nobracket rest2 hc2, ih hrest]
    · rw [pySubImages_generic rest hc, ih hrest]

/-- Claim C9: `preprocess_markdown_for_images` rewrites every image
reference `![alt](reference)` (alt free of `]` and newlines, reference
free of `)` and newlines, as produced by the lazy groups of the regex)
into `####image path: (reference)`, preserving the reference exactly and
discarding the alt text, and then continues on the remaining content;
content that never contains the opener `![` is returned unchanged. -/
theorem c9_image_substitution :
    (∀ (pre alt ref rest : List Char) (bd : String), '!' ∉ pre → '\n' ∉ alt →
        ']' ∉ alt → ')' ∉ ref → '\n' ∉ ref →
        preprocess_markdown_for_images
            (String.mk (pre ++ '!' :: '[' :: (alt ++ ']' :: '(' :: (ref ++ ')' :: rest))))
            bd
          = String.mk (pre ++ (pyImagePlaceholder ref ++ pySubImages rest)))
    ∧ (∀ (s bd : String), listHasSub ['!', '['] s.data = false →
        preprocess_markdown_for_images s bd = s) := by
  constructor
  · intro pre alt ref rest bd h1 h2 h3 h4 h5
    unfold preprocess_markdown_for_images
    exact congrArg String.mk (pySubImages_replaces pre alt ref rest h1 h2 h3 h4 h5)
  · intro s bd h
    unfold preprocess_markdown_for_images
    rw [pySubImages_id_of_no_ref s.data h]

/-- Claim C9 witness: the spec's example `![caption](img/pic.png)` is
rewritten to `####image path: (img/pic.png)` (with any base dir). -/
theorem c9_witness :
    preprocess_markdown_for_images
        (String.mk
          ([] ++ '!' :: '[' ::
            ("caption".data ++ ']' :: '(' :: ("img/pic.png".data ++ ')' :: []))))
        "base"
      = String.mk ([] ++ (pyImagePlaceholder "img/pic.png".data ++ pySubImages [])) :=
  c9_image_substitution.1 [] "caption".data "img/pic.png".data [] "base"
    (by decide) (by decide) (by decide) (by decide) (by decide)

/-- The decision of lines 307-314 is "no update" exactly when the
fingerprint matches, a truthy document id exists and the cached sync
flag is set. -/
theorem needUpdateFlag_eq_false_iff (fh : String) (ch d : Option String) (ss : Bool) :
    needUpdateFlag fh ch d ss = false ↔
      (ch = some fh ∧ pyTruthy d = true ∧ ss = true) := by
  unfold needUpdateFlag
  by_cases hA : ch = some fh
  · by_cases hB : pyTruthy d = true
    · cases ss with
      | true => simp [hA, hB]
      | false => simp [hA, hB]
    · have hB' : pyTruthy d = false := by simpa using hB
      simp [hA, hB']
  · have : (ch == some fh) = false := by simp [hA]
    simp [this, hA]

/-- Once the update-path `get_thread` is known to succeed, the apply
phase attempts no remote mutation exactly when `need_update` is
`False` (both the update and the create branch always attempt at least
one mutating call). -/
theorem applyPhase_ops_empty_iff (env : Env) (nu : Bool) (d : Option String)
    (name content uh : String) (h5 : env.updateHtml = Except.ok uh) :
    ((applyPhase env nu d name content).2.2 = [] ↔ nu = false) := by
  cases nu with
  | false => simp [applyPhase]
  | true =>
    unfold applyPhase
    by_cases hd : pyTruthy d = true
    · simp only [hd, if_pos rfl, if_true, h5]
      cases env.prependResult <;> simp [updateOps]
    · have hd' : pyTruthy d = false := by simpa using hd
      simp only [hd', if_pos rfl, if_true, Bool.false_eq_true, if_false]
      cases env.newDoc with
      | error e => simp
      | ok newId =>
        by_cases hni : pyTruthy newId = true
        · simp [hni]
        · simp [hni]

/-- Claim C5: for a processed file (readable, hashable, non-legacy
cache entry, resolution and update-path fetch succeeding), `sync_file`
attempts no remote mutation — the file is skipped as unchanged — if and
only if the fingerprint equals the cached fingerprint, a truthy remote
document id was resolved, and the cached entry marks the prior sync
successful; every other combination (including an unchanged fingerprint
with a previously failed sync) produces at least one mutating call. -/
theorem c5_skip_iff (env : Env) (path fid : String) (cache : CacheMap)
    (fh raw uh : String) (ch cd d : Option String) (ss : Bool)
    (h1 : env.fileHash = some fh)
    (h2 : env.readContent = Except.ok raw)
    (h3 : entryFields (cacheGet cache path) = some (ch, cd, ss))
    (h5 : env.updateHtml = Except.ok uh)
    (h6 : resolveDoc env cd (nameWithoutExt path) = Except.ok d) :
    ∃ c ops, sync_file env path fid cache = Except.ok (c, ops) ∧
      (ops = [] ↔ (ch = some fh ∧ pyTruthy d = true ∧ ss = true)) := by
  have hops := applyPhase_ops_empty_iff env (needUpdateFlag fh ch d ss) d
    (nameWithoutExt path) (preprocess_markdown_for_images raw (dirname path)) uh h5
  unfold sync_file
  cases hcv : cacheGet cache path with
  | none =>
    rw [hcv] at h3
    simp only [entryFields, Option.some.injEq, Prod.mk.injEq] at h3
    obtain ⟨hch, hcd, hss⟩ := h3
    subst hch
    subst hcd
    subst hss
    simp only [h1, h2, h6, syncSuccessOf]
    refine ⟨_, _, rfl, ?_⟩
    rw [hops]
    exact needUpdateFlag_eq_false_iff fh none d false
  | some val =>
    cases val with
    | legacy fp =>
      rw [hcv] at h3
      simp [entryFields] at h3
    | record hv dv lv sv =>
      rw [hcv] at h3
      simp only [entryFields, Option.some.injEq, Prod.mk.injEq] at h3
      obtain ⟨hch, hcd, hss⟩ := h3
      subst hch
      subst hcd
      subst hss
      simp only [h1, h2, h6, syncSuccessOf]
      refine ⟨_, _, rfl, ?_⟩
      rw [hops]
      exact needUpdateFlag_eq_false_iff fh hv d (sv.getD false)

/-- Environment for the skip-path witness: unchanged fingerprint, cached
id verifies, previous sync recorded successful. -/
def envC5 : Env :=
  ⟨some "h1h", Except.ok "txt", ThreadCheck.valid, Except.ok [],
   Except.ok "", Except.ok (), Except.ok none, true, 3⟩

/-- Claim C5 witness: a concrete unchanged, previously-successful file
is skipped — the mutation trace is empty exactly because all three skip
conditions hold. -/
theorem c5_witness :
    ∃ c ops,
      sync_file envC5 "a.md" "F"
          [("a.md", CacheVal.record (some "h1h") (some "DOC") (some 1) (some true))]
        = Except.ok (c, ops) ∧
      (ops = [] ↔
        (some "h1h" = some "h1h" ∧ pyTruthy (some "DOC") = true ∧ true = true)) :=
  c5_skip_iff envC5 "a.md" "F"
    [("a.md", CacheVal.record (some "h1h") (some "DOC") (some 1) (some true))]
    "h1h" "txt" "" (some "h1h") (some "DOC") (some "DOC") true
    rfl rfl rfl rfl rfl
